import Mathlib

/-!
Verification of the clash-verge-service core against its specification.

The definitions below are a shallow embedding of the Rust sources:

* `src/service/mod.rs`    — `SecureChannel::recv`, `spawn_read_task`,
  `handle_socket_command` (the `StopClash` arm with its UNIX socket-file
  cleanup);
* `src/service/handle.rs` — the supervisor singleton `ClashStatus`,
  `run_core`'s exit-waiter thread, `start_clash`, `stop_clash`, `get_clash`;
* `src/service/data.rs`   — `SocketCommand`, `StartBody`, `JsonResponse`
  and their serde(JSON) encodings.

Machine integers are modelled as `Nat` with explicit `% 2 ^ w` where the
Rust code can overflow (the `u128` timestamp subtraction in `recv`).
Fallible Rust functions (`anyhow::Result`) are modelled with
`Except String`.  Wall-clock readings, AEAD success or failure, child
`kill`/spawn success and the log-configuration update are inputs of the
model, passed explicitly where the Rust code performs the effect.
-/

/-! ## JSON values

serde_json is modelled at the level of JSON abstract syntax trees:
`encode` builds the tree that `serde_json::to_string` would print and
`decode` interprets a tree the way the derived `Deserialize`
implementations do.  The concrete-text layer (printing / parsing) is
serde_json's own and is not re-modelled. -/

inductive Json where
  | null : Json
  | bool (b : Bool) : Json
  | num (n : Nat) : Json
  | str (s : String) : Json
  | arr (elems : List Json) : Json
  | obj (fields : List (String × Json)) : Json

/-- Field lookup in a JSON object, first match wins (serde reads fields
by name, in any order). -/
def jsonLookup (fields : List (String × Json)) (key : String) : Option Json :=
  (fields.find? (fun f => f.1 = key)).map (fun f => f.2)

/-! ## Protocol data (`src/service/data.rs`)

The `data.rs` snapshot in the repository predates its callers:
`handle.rs` reads `body.socket_path` and `mod.rs` / the tests in
`main.rs` use a `GetLogs` variant, neither of which the snapshot
declares.  Those two members are modelled from the spec (§3: `StartBody`
carries an optional `socket_path`; the command union has a `GetLogs`
variant); everything else is from `data.rs`. -/

/-- Model of `StartBody` (`data.rs`).  The `socket_path` field is
Modelled from the spec: §3 "optional `socket_path` (the address the
supervised core should listen on)", missing from the stale `data.rs`
but required by its callers in `handle.rs` and `main.rs`. -/
structure StartBody where
  core_type : Option String
  socket_path : Option String
  bin_path : String
  config_dir : String
  config_file : String
  log_file : String
deriving DecidableEq, Repr

/-- Model of the `SocketCommand` tagged union (`data.rs`).  The
`GetLogs` variant is Modelled from the spec: §3 lists `GetLogs` among
the command variants; it is missing from the stale `data.rs` but used
by `mod.rs` and the tests in `main.rs`. -/
inductive SocketCommand where
  | GetVersion : SocketCommand
  | GetClash : SocketCommand
  | GetLogs : SocketCommand
  | StartClash (body : StartBody) : SocketCommand
  | StopClash : SocketCommand
  | StopService : SocketCommand
deriving DecidableEq, Repr

/-- Model of the response envelope `JsonResponse<T>` (`data.rs`): `code`
is `u64`, `msg` a string, `data` an `Option<T>`.  The payload type `T`
is modelled as a JSON tree, so one definition covers every instantiation
used by the service. -/
structure JsonResponse where
  code : Nat
  msg : String
  data : Option Json

/-- Serde encoding of an `Option<String>` field value: `None` prints as
`null`, `Some s` as the string. -/
def encodeOptString : Option String → Json
  | none => Json.null
  | some s => Json.str s

/-- Serde encoding of `StartBody` (derived `Serialize`: a map with every
field present, `Option` fields as `null` when `None`). -/
def encodeStartBody (b : StartBody) : Json :=
  Json.obj
    [("core_type", encodeOptString b.core_type),
     ("socket_path", encodeOptString b.socket_path),
     ("bin_path", Json.str b.bin_path),
     ("config_dir", Json.str b.config_dir),
     ("config_file", Json.str b.config_file),
     ("log_file", Json.str b.log_file)]

/-- Serde encoding of `SocketCommand` (derived `Serialize`, externally
tagged): unit variants print as their name, the newtype variant as a
one-entry map. -/
def encodeCommand : SocketCommand → Json
  | .GetVersion => Json.str "GetVersion"
  | .GetClash => Json.str "GetClash"
  | .GetLogs => Json.str "GetLogs"
  | .StartClash body => Json.obj [("StartClash", encodeStartBody body)]
  | .StopClash => Json.str "StopClash"
  | .StopService => Json.str "StopService"

/-- Serde encoding of `JsonResponse` (derived `Serialize`): all three
fields, `data = None` printing as `null`.  Note `Some v` prints as the
encoding of `v` alone, so a payload that itself encodes to `null`
(e.g. `T = ()`) is indistinguishable from `None` on the wire. -/
def encodeResponse (r : JsonResponse) : Json :=
  Json.obj
    [("code", Json.num r.code),
     ("msg", Json.str r.msg),
     ("data", match r.data with
       | none => Json.null
       | some v => v)]

/-- Serde decoding of a required `String` field. -/
def decodeStringField (fields : List (String × Json)) (key : String) : Option String :=
  match jsonLookup fields key with
  | some (Json.str s) => some s
  | _ => none

/-- Serde decoding of an `Option<String>` field: a missing field and an
explicit `null` both give `None`. -/
def decodeOptStringField (fields : List (String × Json)) (key : String) : Option (Option String) :=
  match jsonLookup fields key with
  | none => some none
  | some Json.null => some none
  | some (Json.str s) => some (some s)
  | some _ => none

/-- Serde decoding of `StartBody` (derived `Deserialize`): fields are
read by name, `Option` fields tolerate absence, any non-`Option` field
missing or ill-typed is an error. -/
def decodeStartBody : Json → Option StartBody
  | Json.obj fields => do
    let ct ← decodeOptStringField fields "core_type"
    let sp ← decodeOptStringField fields "socket_path"
    let bp ← decodeStringField fields "bin_path"
    let cd ← decodeStringField fields "config_dir"
    let cf ← decodeStringField fields "config_file"
    let lf ← decodeStringField fields "log_file"
    some ⟨ct, sp, bp, cd, cf, lf⟩
  | _ => none

/-- Serde decoding of `SocketCommand` (derived `Deserialize`, externally
tagged): a bare string selects a unit variant, a one-entry map selects a
variant by key (`null` contents for unit variants, a `StartBody` map for
`StartClash`). -/
def decodeCommand : Json → Option SocketCommand
  | Json.str "GetVersion" => some .GetVersion
  | Json.str "GetClash" => some .GetClash
  | Json.str "GetLogs" => some .GetLogs
  | Json.str "StopClash" => some .StopClash
  | Json.str "StopService" => some .StopService
  | Json.obj [("GetVersion", Json.null)] => some .GetVersion
  | Json.obj [("GetClash", Json.null)] => some .GetClash
  | Json.obj [("GetLogs", Json.null)] => some .GetLogs
  | Json.obj [("StopClash", Json.null)] => some .StopClash
  | Json.obj [("StopService", Json.null)] => some .StopService
  | Json.obj [("StartClash", body)] => (decodeStartBody body).map .StartClash
  | _ => none

/-- Serde decoding of `JsonResponse` (derived `Deserialize`): `code` a
number, `msg` a string, `data` an `Option` payload where `null` (or a
missing field) reads back as `None`. -/
def decodeResponse : Json → Option JsonResponse
  | Json.obj fields => do
    let code ← match jsonLookup fields "code" with
      | some (Json.num n) => some n
      | _ => none
    let msg ← match jsonLookup fields "msg" with
      | some (Json.str s) => some s
      | _ => none
    let data : Option Json ← match jsonLookup fields "data" with
      | none => some none
      | some Json.null => some none
      | some v => some (some v)
    some ⟨code, msg, data⟩
  | _ => none

/-! ## The secure channel receive path (`SecureChannel::recv`, `mod.rs` 107-155)

`recv` is modelled from the point where the message content is
determined: the two `read_exact` calls and the AEAD `decrypt` either
fail (the three error constructors below) or produce the plaintext
bytes.  Everything after the decrypt — the length check, the big-endian
parses, the freshness check and the seen-ID check — is translated
directly.  Bytes are `Nat` values `< 256`; the parsers reduce each byte
`% 256` exactly as `from_be_bytes` only ever sees byte values. -/

/-- Big-endian interpretation of a byte list, as done by
`u128::from_be_bytes` / `u64::from_be_bytes` on the plaintext header. -/
def beNat (bytes : List Nat) : Nat :=
  bytes.foldl (fun acc b => acc * 256 + b % 256) 0

/-- Big-endian byte list of width `w` for `n` (the `to_be_bytes`
direction, used to build concrete plaintexts in the theorems). -/
def beBytes : Nat → Nat → List Nat
  | 0, _ => []
  | w + 1, n => beBytes w (n / 256) ++ [n % 256]

/-- Outcome of the transport steps of `recv` that precede the plaintext
checks: the two `read_exact` calls can come up short and the AEAD
`decrypt` can fail; otherwise a plaintext byte sequence is produced. -/
inductive RecvInput where
  | shortLenRead : RecvInput
  | shortFrameRead : RecvInput
  | decryptFail : RecvInput
  | plaintext (pt : List Nat) : RecvInput

/-- Result of `recv`: an error message (`anyhow!`) or the surfaced
payload together with the updated seen-ID set. -/
inductive RecvResult where
  | err (msg : String) : RecvResult
  | ok (payload : List Nat) (seen : List Nat) : RecvResult
deriving DecidableEq, Repr

/-- Truth of `RecvResult` being an error. -/
def RecvResult.isErr : RecvResult → Bool
  | .err _ => true
  | .ok _ _ => false

/-- Message id of a plaintext: `u64::from_be_bytes(plaintext[16..24])`. -/
def msgIdOf (pt : List Nat) : Nat :=
  beNat ((pt.drop 16).take 8)

/-- Timestamp of a plaintext: `u128::from_be_bytes(plaintext[0..16])`. -/
def tsOf (pt : List Nat) : Nat :=
  beNat (pt.take 16)

/-- Model of `SecureChannel::recv` (`mod.rs` 107-155).  `now` is the
receiver's `SystemTime::now()` in milliseconds (a `u128`), `window` the
session's `timestamp_window` (500 for channels built by the handshake),
`seen` the session's seen-ID set (a `HashSet<u64>`, modelled as a list).
The subtraction `now - ts` is the Rust `u128` operation: with overflow
checks disabled it wraps modulo `2 ^ 128`, which the model makes
explicit (with overflow checks enabled the same inputs panic). -/
def recv (input : RecvInput) (now window : Nat) (seen : List Nat) : RecvResult :=
  match input with
  | .shortLenRead => .err "invalid connection"
  | .shortFrameRead => .err "invalid connection"
  | .decryptFail => .err "decrypt failed"
  | .plaintext pt =>
    if pt.length < 24 then
      .err "payload too short"
    else
      let ts := tsOf pt
      let msg_id := msgIdOf pt
      let request_timestamp := (now % 2 ^ 128 + 2 ^ 128 - ts) % 2 ^ 128
      if request_timestamp > window then
        .err "replay attack: old timestamp"
      else if seen.contains msg_id then
        .err "replay attack: duplicate message ID"
      else
        .ok (pt.drop 24) (msg_id :: seen)

/-! ## The per-session read loop (`spawn_read_task`, `mod.rs` 286-321) -/

/-- Observable outcome of one iteration of the read loop of
`spawn_read_task`: either the loop exits with no response written
(`while let Ok(msg) = secured.recv()` falls through on any `recv`
error), or exactly one response envelope with the given code is written
and the session either continues with the next request or, after a
`StopService`, shuts the stream down and breaks. -/
inductive StepResult where
  | closedSilently : StepResult
  | respondedContinue (code : Nat) : StepResult
  | respondedShutdown (code : Nat) : StepResult
deriving DecidableEq, Repr

/-- Envelope code produced by the `wrap_response!` macro (`mod.rs`
41-56): `Ok` wraps as code 0, `Err` as code 400. -/
def responseCode {α : Type} : Except String α → Nat
  | .ok _ => 0
  | .error _ => 400

/-- Model of one iteration of the loop in `spawn_read_task` (`mod.rs`
286-321).  `parse` models `serde_json::from_str::<SocketCommand>` on
the UTF-8 reading of the payload; `exec` models the command handler
invoked by `handle_socket_command`, whose result `wrap_response!` turns
into the envelope that is sent back. -/
def spawn_read_step (r : RecvResult) (parse : List Nat → Option SocketCommand)
    (exec : SocketCommand → Except String Unit) : StepResult :=
  match r with
  | .err _ => .closedSilently
  | .ok payload _ =>
    match parse payload with
    | none => .respondedContinue 400
    | some cmd =>
      let code := responseCode (exec cmd)
      match cmd with
      | .StopService => .respondedShutdown code
      | _ => .respondedContinue code

/-! ## The core supervisor (`src/service/handle.rs`)

The supervisor singleton `ClashStatus` and the log ring are process-wide
globals; the model threads them explicitly as a `ServiceState`.  The
child handle carries no observable data beyond its presence, so it is
modelled as `Option Unit`.  `chrono` timestamps are modelled as `Int`
seconds (the exit waiter compares elapsed seconds against `60.0`; whole
seconds suffice for every comparison the code makes).  The log ring
(`Logger`, whose source file is absent from the snapshot) is Modelled
from the spec: §4.6, a bounded FIFO of lines with `clear()` emptying it
— only `clear` is exercised by the claims. -/

/-- The value of `DEFAULT_RETRY_COUNT` (`handle.rs` 23). -/
def DEFAULT_RETRY_COUNT : Nat := 10

/-- The value of `INTERVAL_TIME` in seconds (`handle.rs` 26). -/
def INTERVAL_TIME : Int := 60

/-- Model of the supervisor singleton `ClashStatus` (`handle.rs` 28-36). -/
structure ClashStatus where
  auto_restart : Bool
  restart_retry_count : Nat
  child : Option Unit
  last_running_time : Int
  info : Option StartBody
deriving DecidableEq, Repr

/-- Model of `ClashStatus::default()` (`handle.rs` 38-48); `now` stands
for the `Local::now()` it stores. -/
def defaultStatus (now : Int) : ClashStatus :=
  { auto_restart := false
    restart_retry_count := DEFAULT_RETRY_COUNT
    child := none
    last_running_time := now
    info := none }

/-- The two process-wide globals the handlers touch: the supervisor
singleton and the log ring. -/
structure ServiceState where
  clash : ClashStatus
  logs : List String
deriving DecidableEq, Repr

/-- Result of `stop_clash` (`handle.rs` 185-207): the `anyhow` result,
the state of the globals afterwards, and whether the closing sweep that
kills every process named `verge-mihomo` was reached. -/
structure StopOutcome where
  result : Except String Unit
  state : ServiceState
  sweptOrphans : Bool
deriving Repr

/-- Model of `stop_clash` (`handle.rs` 185-207).  `killOk` is the result
of `SharedChild::kill` on the stored child, when one is present; `now`
is the `Local::now()` captured by `ClashStatus::default()`.  The child
handle is `take`n out of the state before `kill` is called, so a kill
error (propagated by `?`) leaves everything else untouched: no reset to
defaults, no `clear_log`, no orphan sweep. -/
def stop_clash (killOk : Bool) (now : Int) (s : ServiceState) : StopOutcome :=
  match s.clash.child with
  | some _ =>
    if killOk then
      { result := .ok ()
        state := { clash := defaultStatus now, logs := [] }
        sweptOrphans := true }
    else
      { result := .error "kill failed"
        state := { s with clash := { s.clash with child := none } }
        sweptOrphans := false }
  | none =>
    { result := .ok ()
      state := { clash := defaultStatus now, logs := [] }
      sweptOrphans := true }

/-- Model of the spawning part of `run_core` (`handle.rs` 66-87): on
spawn success the child handle is stored and `last_running_time` is
stamped with `Local::now()`; on failure (`context("failed to spawn
clash")?`) the state is unchanged.  The two threads `run_core` spawns
are modelled separately (`exit_waiter_step`). -/
def run_core (spawnOk : Bool) (now : Int) (s : ServiceState) : Except String ServiceState :=
  if spawnOk then
    .ok { s with clash := { s.clash with child := some (), last_running_time := now } }
  else
    .error "failed to spawn clash"

/-- Observable action of one pass of the exit-waiter thread. -/
inductive ExitAction where
  | noRestart : ExitAction
  | restarted : ExitAction
  | retryExceeded : ExitAction
deriving DecidableEq, Repr

/-- Model of the exit-waiter thread body of `run_core` (`handle.rs`
103-139), entered when the supervised child exits at time `now`.  It
snapshots the singleton; if `auto_restart` is unset nothing happens.
Otherwise, if more than `INTERVAL_TIME` seconds elapsed since
`last_running_time`, the retry count is reset to `DEFAULT_RETRY_COUNT`
in the global (and in the snapshot).  If the (possibly reset) count is
positive, the global count is decremented, the log ring is cleared and
`run_core` re-runs with the stored body (spawn assumed to succeed:
child stored, `last_running_time` restamped).  Otherwise "retry count
exceeded" is logged and no restart happens. -/
def exit_waiter_step (now : Int) (s : ServiceState) : ServiceState × ExitAction :=
  let cs := s.clash
  if cs.auto_restart then
    let elapsed := now - cs.last_running_time
    let cs1 := if elapsed > INTERVAL_TIME then
      { cs with restart_retry_count := DEFAULT_RETRY_COUNT }
    else cs
    if cs1.restart_retry_count > 0 then
      let cs2 := { cs1 with
        restart_retry_count := cs1.restart_retry_count - 1
        child := some ()
        last_running_time := now }
      ({ clash := cs2, logs := [] }, .restarted)
    else
      ({ s with clash := cs1 }, .retryExceeded)
  else
    (s, .noRestart)

/-- Iterated exit-waiter passes, one per child exit, at the given exit
times; returns the final state and the action observed at each exit. -/
def iterateExits : List Int → ServiceState → ServiceState × List ExitAction
  | [], s => (s, [])
  | t :: rest, s =>
    let p := exit_waiter_step t s
    let q := iterateExits rest p.1
    (q.1, p.2 :: q.2)

/-- Model of `get_clash` (`handle.rs` 210-220), including the dead
`(Some, true)` arm: the guard on line 212 already returned for every
state with a zero retry count. -/
def get_clash (cs : ClashStatus) : Except String ClashStatus :=
  if cs.restart_retry_count = 0 then
    .error "clash not executed, retry count exceeded!"
  else
    match cs.info, cs.restart_retry_count == 0 with
    | some _, false => .ok cs
    | some _, true => .error "clash terminated, retry count exceeded!"
    | none, _ => .error "clash not executed"

/-! ## Path handling in `start_clash`

`start_clash` calls `Path::parent().unwrap()` and
`Path::file_name().unwrap()` on `body.log_file`.  The two std methods
are modelled for UNIX-style slash-separated paths through their
normalized components (empty and `.` components dropped, as
`Path::components` does).  Only the presence of a parent and of a file
name is consumed downstream: the parent directory feeds the log
configuration, which the model abstracts by `logCfgOk`. -/

/-- Normalized path components: the pieces between `/` separators,
with empty and `.` pieces dropped. -/
def pathComponents (p : String) : List String :=
  ((p.toList.splitOn '/').map (fun cs => String.mk cs)).filter (fun c => c ≠ "" && c ≠ ".")

/-- Model of `std::path::Path::file_name`: the last normalized
component, unless the path is empty / a root or ends in `..`. -/
def pathFileName (p : String) : Option String :=
  match (pathComponents p).getLast? with
  | none => none
  | some c => if c = ".." then none else some c

/-- Model of `std::path::Path::parent` as far as `start_clash` consumes
it: `none` exactly when the path has no components (empty string or
root), otherwise the path with its last component removed. -/
def pathParent (p : String) : Option String :=
  match pathComponents p with
  | [] => none
  | comps => some (String.intercalate "/" comps.dropLast)

/-- Result of `start_clash`: unlike the other handlers it can also
panic, on the two `unwrap()` calls of the log-file path split; the
`panicked` constructor records the state of the globals at the panic
point. -/
inductive StartOutcome where
  | ok (s : ServiceState) : StartOutcome
  | err (msg : String) (s : ServiceState) : StartOutcome
  | panicked (s : ServiceState) : StartOutcome
deriving Repr

/-- Truth of a `StartOutcome` being the panic outcome. -/
def StartOutcome.isPanic : StartOutcome → Bool
  | .panicked _ => true
  | _ => false

/-- State of the globals in a `StartOutcome`. -/
def StartOutcome.state : StartOutcome → ServiceState
  | .ok s => s
  | .err _ s => s
  | .panicked s => s

/-- Model of `start_clash` (`handle.rs` 161-182).  In order: `stop_clash()?`
(propagating its error), then `auto_restart := true` and `info := some
body` on the singleton, then the log-file split — `parent().unwrap()`
and `file_name().unwrap()` panic if either is absent — then
`LogConfig::update_config(..)?` (abstracted by `logCfgOk`), then
`run_core(body)?`.  `killOk` feeds the inner `stop_clash`, `now` the
wall clock, `spawnOk` the spawn. -/
def start_clash (killOk logCfgOk spawnOk : Bool) (now : Int) (body : StartBody)
    (s : ServiceState) : StartOutcome :=
  let st := stop_clash killOk now s
  match st.result with
  | .error e => .err e st.state
  | .ok _ =>
    let s1 : ServiceState :=
      { st.state with clash := { st.state.clash with auto_restart := true, info := some body } }
    match pathParent body.log_file, pathFileName body.log_file with
    | some _, some _ =>
      if logCfgOk then
        match run_core spawnOk now s1 with
        | .ok s2 => .ok s2
        | .error e => .err e s1
      else
        .err "update log config failed" s1
    | _, _ => .panicked s1

/-! ## The `StopClash` arm of `handle_socket_command` (`mod.rs` 331-351) -/

/-- Outcome of the `StopClash` arm: the envelope code of the response,
the globals afterwards, and the filesystem afterwards (as the
characteristic function of the set of existing paths). -/
structure StopClashOutcome where
  code : Nat
  state : ServiceState
  fs : String → Bool

/-- Model of the `SocketCommand::StopClash` arm of
`handle_socket_command` (`mod.rs` 331-351), UNIX configuration.  Before
stopping, it captures `clash_status.info.and_then(|i| i.socket_path)`
from the singleton; then `wrap_response!(stop_clash())` builds the
envelope (code 0 on success, 400 on error); then, if a socket path was
captured and the file exists, the file is removed. -/
def handle_stop_clash (killOk : Bool) (now : Int) (s : ServiceState)
    (fs : String → Bool) : StopClashOutcome :=
  let socket_path := s.clash.info.bind (fun i => i.socket_path)
  let st := stop_clash killOk now s
  let code := match st.result with
    | .ok _ => 0
    | .error _ => 400
  let fs1 := match socket_path with
    | some p => fun q => if q = p then false else fs q
    | none => fs
  { code := code, state := st.state, fs := fs1 }

/-! ## Auxiliary definitions for the statements -/

/-- Every exit in the list happens at most `INTERVAL_TIME` seconds
after the previous spawn (the previous exit restamps
`last_running_time`, so consecutive differences are the run lengths). -/
def gapsWithin : Int → List Int → Prop
  | _, [] => True
  | prev, t :: rest => t - prev ≤ INTERVAL_TIME ∧ gapsWithin t rest

/-- Concrete `StartBody` used to instantiate witnesses. -/
def sampleBody : StartBody :=
  { core_type := some "verge-mihomo"
    socket_path := some "/tmp/verge-mihomo-test.sock"
    bin_path := "/usr/bin/verge-mihomo"
    config_dir := "/etc/clash-verge"
    config_file := "config.yaml"
    log_file := "/var/log/clash-verge/service.log" }

/-- C1: code evaluation at the failing input.  A message whose
timestamp is 1 ms in the future — well inside the 500 ms window the
spec allows — is rejected by `recv`: the `u128` subtraction `now - ts`
wraps to `2 ^ 128 - 1`, which exceeds every window. -/
theorem recv_wraps_on_future_timestamp :
    (600001 : Nat) ≤ 600000 + 500 ∧
    recv (.plaintext (beBytes 16 600001 ++ beBytes 8 7 ++ [42])) 600000 500 []
      = .err "replay attack: old timestamp" :=
  ⟨by decide, by decide⟩

/-- C2: a payload is surfaced only when its message id was absent from
the session's seen set, the id is inserted on acceptance, and any later
message carrying an already-seen id (against any superset of the
updated set) is rejected. -/
theorem recv_never_accepts_duplicate_id
    (pt payload : List Nat) (now window : Nat) (seen seen' : List Nat)
    (hok : recv (.plaintext pt) now window seen = .ok payload seen') :
    (seen.contains (msgIdOf pt) = false ∧ seen' = msgIdOf pt :: seen) ∧
    ∀ (pt2 : List Nat) (now2 : Nat) (seen2 : List Nat),
      msgIdOf pt2 = msgIdOf pt → seen' ⊆ seen2 →
      (recv (.plaintext pt2) now2 window seen2).isErr = true := by
  simp only [recv] at hok
  split at hok
  · simp at hok
  · split at hok
    · simp at hok
    · split at hok
      · simp at hok
      · rename_i hlen hts hdup
        obtain ⟨hpayload, hseen⟩ := RecvResult.ok.inj hok
        constructor
        · exact ⟨by simpa using hdup, hseen.symm⟩
        · intro pt2 now2 seen2 hid hsub
          simp only [recv]
          split
          · rfl
          · split
            · rfl
            · rename_i hlen2 hts2
              have hmem : msgIdOf pt2 ∈ seen2 := by
                apply hsub
                rw [hid, ← hseen]
                exact List.mem_cons_self _ _
              simp [hmem, RecvResult.isErr]

theorem recv_never_accepts_duplicate_id_witness :
    (recv (.plaintext (beBytes 16 1000 ++ beBytes 8 7 ++ [1])) 1200 500 [7]).isErr = true := by
  have h := recv_never_accepts_duplicate_id (beBytes 16 1000 ++ beBytes 8 7 ++ [1]) [1]
    1000 500 [] [7] (by decide)
  exact h.2 (beBytes 16 1000 ++ beBytes 8 7 ++ [1]) 1200 [7] rfl (by intro a ha; exact ha)

/-- C3: every failure of the framing / AEAD / replay layer (short
length-prefix read, short frame read, AEAD failure, plaintext shorter
than 24 bytes, stale timestamp, duplicate message id) makes `recv`
return an error, and the read loop exits silently — no response — on
any `recv` error; a code-400 envelope is sent back exactly for the
application-layer failures (unparsable command, handler error), after
which the session keeps serving. -/
theorem framing_failures_close_silently
    (now window : Nat) (seen : List Nat)
    (parse : List Nat → Option SocketCommand) (exec : SocketCommand → Except String Unit) :
    ((recv .shortLenRead now window seen).isErr = true ∧
     (recv .shortFrameRead now window seen).isErr = true ∧
     (recv .decryptFail now window seen).isErr = true ∧
     (∀ pt, pt.length < 24 → (recv (.plaintext pt) now window seen).isErr = true) ∧
     (∀ pt, (now % 2 ^ 128 + 2 ^ 128 - tsOf pt) % 2 ^ 128 > window →
        (recv (.plaintext pt) now window seen).isErr = true) ∧
     (∀ pt, seen.contains (msgIdOf pt) = true →
        (recv (.plaintext pt) now window seen).isErr = true)) ∧
    (∀ e, spawn_read_step (.err e) parse exec = .closedSilently) ∧
    (∀ payload seen2, parse payload = none →
       spawn_read_step (.ok payload seen2) parse exec = .respondedContinue 400) ∧
    (∀ payload seen2 cmd msg, parse payload = some cmd → cmd ≠ .StopService →
       exec cmd = .error msg →
       spawn_read_step (.ok payload seen2) parse exec = .respondedContinue 400) := by
  refine ⟨⟨rfl, rfl, rfl, ?_, ?_, ?_⟩, ?_, ?_, ?_⟩
  · intro pt h
    simp [recv, h, RecvResult.isErr]
  · intro pt h
    simp only [recv]
    split
    · rfl
    · simp [h, RecvResult.isErr]
  · intro pt h
    simp only [recv]
    split
    · rfl
    · split
      · rfl
      · simp [h, RecvResult.isErr]
  · intro e
    rfl
  · intro payload seen2 h
    simp [spawn_read_step, h]
  · intro payload seen2 cmd msg hp hns he
    cases cmd
    case StopService => exact absurd rfl hns
    all_goals simp [spawn_read_step, hp, responseCode, he]

theorem framing_failures_close_silently_witness :
    spawn_read_step (.ok [1] []) (fun _ => none) (fun _ => .ok ()) = .respondedContinue 400 ∧
    spawn_read_step (.ok [1] []) (fun _ => some .GetClash)
      (fun _ => .error "clash not executed") = .respondedContinue 400 ∧
    (recv (.plaintext []) 0 500 []).isErr = true := by
  refine ⟨?_, ?_, ?_⟩
  · exact (framing_failures_close_silently 0 500 [] (fun _ => none)
      (fun _ => .ok ())).2.2.1 [1] [] rfl
  · exact (framing_failures_close_silently 0 500 [] (fun _ => some .GetClash)
      (fun _ => .error "clash not executed")).2.2.2 [1] [] .GetClash "clash not executed"
      rfl (by simp) rfl
  · exact (framing_failures_close_silently 0 500 [] (fun _ => none)
      (fun _ => .ok ())).1.2.2.2.1 [] (by decide)

/-- Helper: a successful `stop_clash` always ends in the full reset:
default supervisor state, empty log ring, orphan sweep performed. -/
theorem stop_clash_ok_shape (killOk : Bool) (now : Int) (s : ServiceState)
    (h : (stop_clash killOk now s).result = .ok ()) :
    stop_clash killOk now s = ⟨.ok (), ⟨defaultStatus now, []⟩, true⟩ := by
  rcases hch : s.clash.child with - | c
  · simp [stop_clash, hch]
  · cases killOk
    · simp [stop_clash, hch] at h
    · simp [stop_clash, hch]

/-- Helper: the state a successful `start_clash` returns. -/
theorem start_clash_ok_shape (killOk logCfgOk spawnOk : Bool) (now : Int)
    (body : StartBody) (s s1 : ServiceState)
    (h : start_clash killOk logCfgOk spawnOk now body s = .ok s1) :
    s1 = ⟨⟨true, DEFAULT_RETRY_COUNT, some (), now, some body⟩, []⟩ := by
  simp only [start_clash] at h
  rcases hch : s.clash.child with - | c
  all_goals cases killOk
  all_goals simp only [stop_clash, hch] at h
  all_goals try simp at h
  all_goals {
    rcases hp : pathParent body.log_file with - | d <;>
      rcases hf : pathFileName body.log_file with - | f <;>
        simp only [hp, hf] at h
    all_goals try simp at h
    cases logCfgOk
    · simp at h
    · simp only [run_core] at h
      cases spawnOk
      · simp at h
      · simp only [if_true] at h
        simp [defaultStatus] at h
        exact h.symm
  }

/-- Helper: one-step unfolding of `iterateExits`. -/
theorem iterateExits_cons (t : Int) (ts : List Int) (s : ServiceState) :
    iterateExits (t :: ts) s
      = ((iterateExits ts (exit_waiter_step t s).1).1,
         (exit_waiter_step t s).2 :: (iterateExits ts (exit_waiter_step t s).1).2) := rfl

/-- Helper: an exit within the stability interval, with retry budget
left, restarts: count decremented, log ring cleared, child respawned,
`last_running_time` restamped. -/
theorem exit_step_restart_eq (c : Nat) (hc : 0 < c) (prev now : Int)
    (h60 : now - prev ≤ INTERVAL_TIME) (ch : Option Unit) (inf : Option StartBody)
    (lg : List String) :
    exit_waiter_step now ⟨⟨true, c, ch, prev, inf⟩, lg⟩
      = (⟨⟨true, c - 1, some (), now, inf⟩, []⟩, .restarted) := by
  have h1 : ¬(now - prev > INTERVAL_TIME) := by omega
  simp [exit_waiter_step, h1, hc]

/-- Helper: an exit within the stability interval with the budget at
zero only logs "retry count exceeded"; the state is untouched. -/
theorem exit_step_exceeded_eq (prev now : Int) (h60 : now - prev ≤ INTERVAL_TIME)
    (ch : Option Unit) (inf : Option StartBody) (lg : List String) :
    exit_waiter_step now ⟨⟨true, 0, ch, prev, inf⟩, lg⟩
      = (⟨⟨true, 0, ch, prev, inf⟩, lg⟩, .retryExceeded) := by
  have h1 : ¬(now - prev > INTERVAL_TIME) := by omega
  simp [exit_waiter_step, h1]

/-- Helper: a run of exits, each within the stability interval, whose
count fits in the retry budget, restarts every time. -/
theorem iterate_restarts (ts : List Int) (t prev : Int) (c : Nat)
    (ch : Option Unit) (inf : Option StartBody) (lg : List String)
    (hg : gapsWithin prev (t :: ts)) (hc : ts.length + 1 ≤ c) :
    iterateExits (t :: ts) ⟨⟨true, c, ch, prev, inf⟩, lg⟩
      = (⟨⟨true, c - (ts.length + 1), some (), ts.getLastD t, inf⟩, []⟩,
         List.replicate (ts.length + 1) .restarted) := by
  induction ts generalizing t prev c ch lg with
  | nil =>
    obtain ⟨h1, -⟩ := hg
    rw [iterateExits_cons, exit_step_restart_eq c (by omega) prev t h1]
    simp [iterateExits]
  | cons t2 rest ih =>
    obtain ⟨h1, hg2⟩ := hg
    rw [iterateExits_cons, exit_step_restart_eq c (by omega) prev t h1]
    dsimp only
    rw [ih t2 t (c - 1) (some ()) [] hg2 (by simp at hc; omega)]
    have harith : c - 1 - (rest.length + 1) = c - (rest.length + 1 + 1) := by omega
    have hlast : (t2 :: rest).getLastD t = rest.getLastD t2 := List.getLastD_cons t t2 rest
    rw [hlast]
    simp [List.replicate_succ, harith]

/-- Helper: `iterateExits` over a concatenation runs the two halves in
sequence. -/
theorem iterateExits_append (l1 l2 : List Int) (s : ServiceState) :
    iterateExits (l1 ++ l2) s
      = ((iterateExits l2 (iterateExits l1 s).1).1,
         (iterateExits l1 s).2 ++ (iterateExits l2 (iterateExits l1 s).1).2) := by
  induction l1 generalizing s with
  | nil => simp [iterateExits]
  | cons t rest ih => simp [iterateExits_cons, ih]

/-- C4: after a successful `start_clash` whose child exits eleven times,
each run lasting at most 60 seconds and with no intervening `StopClash`,
the exit waiter restarts exactly ten times (one per exit while the
budget is positive, decrementing it each time), the eleventh exit only
logs "retry count exceeded", and `get_clash` on the resulting state is
an error wrapped as code 400. -/
theorem retry_budget_exhaustion
    (killOk logCfgOk spawnOk : Bool) (body : StartBody) (s s1 : ServiceState)
    (t0 t1 t2 t3 t4 t5 t6 t7 t8 t9 t10 t11 : Int)
    (hstart : start_clash killOk logCfgOk spawnOk t0 body s = .ok s1)
    (h1 : t1 - t0 ≤ 60) (h2 : t2 - t1 ≤ 60) (h3 : t3 - t2 ≤ 60) (h4 : t4 - t3 ≤ 60)
    (h5 : t5 - t4 ≤ 60) (h6 : t6 - t5 ≤ 60) (h7 : t7 - t6 ≤ 60) (h8 : t8 - t7 ≤ 60)
    (h9 : t9 - t8 ≤ 60) (h10 : t10 - t9 ≤ 60) (h11 : t11 - t10 ≤ 60) :
    (iterateExits [t1, t2, t3, t4, t5, t6, t7, t8, t9, t10, t11] s1).2
      = List.replicate 10 .restarted ++ [.retryExceeded] ∧
    (iterateExits [t1, t2, t3, t4, t5, t6, t7, t8, t9, t10, t11] s1).1.clash.restart_retry_count
      = 0 ∧
    responseCode
      (get_clash (iterateExits [t1, t2, t3, t4, t5, t6, t7, t8, t9, t10, t11] s1).1.clash)
      = 400 := by
  have hs1 := start_clash_ok_shape killOk logCfgOk spawnOk t0 body s s1 hstart
  subst hs1
  have h10run : iterateExits [t1, t2, t3, t4, t5, t6, t7, t8, t9, t10]
      ⟨⟨true, DEFAULT_RETRY_COUNT, some (), t0, some body⟩, []⟩
      = (⟨⟨true, 0, some (), t10, some body⟩, []⟩, List.replicate 10 .restarted) := by
    have h := iterate_restarts [t2, t3, t4, t5, t6, t7, t8, t9, t10] t1 t0
      DEFAULT_RETRY_COUNT (some ()) (some body) []
      ⟨h1, h2, h3, h4, h5, h6, h7, h8, h9, h10, trivial⟩
      (by norm_num [DEFAULT_RETRY_COUNT])
    simpa [DEFAULT_RETRY_COUNT] using h
  have key : ([t1, t2, t3, t4, t5, t6, t7, t8, t9, t10, t11] : List Int)
      = [t1, t2, t3, t4, t5, t6, t7, t8, t9, t10] ++ [t11] := rfl
  rw [key, iterateExits_append, h10run]
  dsimp only
  rw [iterateExits_cons, exit_step_exceeded_eq t10 t11 h11]
  refine ⟨by simp [iterateExits], by simp [iterateExits], ?_⟩
  simp [iterateExits, get_clash, responseCode]

theorem retry_budget_exhaustion_witness :
    (iterateExits [1, 2, 3, 4, 5, 6, 7, 8, 9, 10, 11]
      ⟨⟨true, DEFAULT_RETRY_COUNT, some (), 0, some sampleBody⟩, []⟩).2
      = List.replicate 10 ExitAction.restarted ++ [ExitAction.retryExceeded] :=
  (retry_budget_exhaustion true true true sampleBody ⟨⟨false, 10, none, 0, none⟩, []⟩
    ⟨⟨true, DEFAULT_RETRY_COUNT, some (), 0, some sampleBody⟩, []⟩
    0 1 2 3 4 5 6 7 8 9 10 11 rfl
    (by decide) (by decide) (by decide) (by decide) (by decide) (by decide)
    (by decide) (by decide) (by decide) (by decide) (by decide)).1

/-- C5 counterexample: a child exit 61 s after the last spawn, with
`auto_restart` set, leaves `restart_retry_count` at 9, not 10: the reset
to 10 is immediately consumed by the decrement of the restart it
funds. -/
theorem stable_run_reset_observed_nine_cex :
    (exit_waiter_step 61 ⟨⟨true, 3, some (), 0, some sampleBody⟩, []⟩).1.clash.restart_retry_count
      = 9 ∧ (9 : Nat) ≠ 10 :=
  ⟨by decide, by decide⟩

/-- C5 (amended): when the child exits with `auto_restart` set and more
than 60 s elapsed since `last_running_time`, the retry count is reset to
10 and then immediately decremented for the restart it pays for, so the
observed value after the exit-then-restart is 9, whatever the count was
before. -/
theorem stable_run_reset_then_decrement (c : Nat) (prev now : Int) (h : now - prev > 60)
    (ch : Option Unit) (inf : Option StartBody) (lg : List String) :
    exit_waiter_step now ⟨⟨true, c, ch, prev, inf⟩, lg⟩
      = (⟨⟨true, DEFAULT_RETRY_COUNT - 1, some (), now, inf⟩, []⟩, .restarted) := by
  simp [exit_waiter_step, INTERVAL_TIME, h, DEFAULT_RETRY_COUNT]

theorem stable_run_reset_then_decrement_witness :
    exit_waiter_step 100 ⟨⟨true, 5, some (), 0, some sampleBody⟩, ["line"]⟩
      = (⟨⟨true, DEFAULT_RETRY_COUNT - 1, some (), 100, some sampleBody⟩, []⟩, .restarted) :=
  stable_run_reset_then_decrement 5 0 100 (by decide) (some ()) (some sampleBody) ["line"]

/-- C6 counterexample: with the retry count at 0, `get_clash` fails with
"clash not executed, retry count exceeded!", not with the message the
claim states — the `(Some, true)` arm carrying "clash terminated, retry
count exceeded!" sits behind a guard that already returned. -/
theorem get_clash_exhausted_message_cex :
    get_clash ⟨true, 0, some (), 0, some sampleBody⟩
      = .error "clash not executed, retry count exceeded!" ∧
    get_clash ⟨true, 0, some (), 0, some sampleBody⟩
      ≠ .error "clash terminated, retry count exceeded!" := by
  refine ⟨rfl, ?_⟩
  intro h
  rw [show get_clash ⟨true, 0, some (), 0, some sampleBody⟩
    = .error "clash not executed, retry count exceeded!" from rfl] at h
  exact absurd (Except.error.inj h) (by decide)

/-- C6 (amended): `get_clash` returns the snapshot exactly when `info`
is set and the retry count is positive; it fails with "clash not
executed" when `info` is none and the count is positive — in particular
on the state a successful `stop_clash` leaves — and with "clash not
executed, retry count exceeded!" whenever the count is 0 (the "clash
terminated, retry count exceeded!" arm is unreachable). -/
theorem get_clash_snapshot (cs : ClashStatus) :
    (∀ b : StartBody, cs.info = some b → cs.restart_retry_count ≠ 0 → get_clash cs = .ok cs) ∧
    (cs.info = none → cs.restart_retry_count ≠ 0 → get_clash cs = .error "clash not executed") ∧
    (cs.restart_retry_count = 0 →
      get_clash cs = .error "clash not executed, retry count exceeded!") ∧
    (∀ s', get_clash cs = .ok s' →
      s' = cs ∧ cs.info.isSome = true ∧ cs.restart_retry_count ≠ 0) ∧
    (∀ (killOk : Bool) (now : Int) (st : ServiceState),
      (stop_clash killOk now st).result = .ok () →
      get_clash (stop_clash killOk now st).state.clash = .error "clash not executed") := by
  refine ⟨?_, ?_, ?_, ?_, ?_⟩
  · intro b hb hc
    have hb2 : (cs.restart_retry_count == 0) = false := by simpa using hc
    simp [get_clash, hb, hc, hb2]
  · intro hi hc
    simp [get_clash, hi, hc]
  · intro hc
    simp [get_clash, hc]
  · intro s' h
    by_cases hc : cs.restart_retry_count = 0
    · simp [get_clash, hc] at h
    · rcases hi : cs.info with - | b
      · simp [get_clash, hc, hi] at h
      · have hb2 : (cs.restart_retry_count == 0) = false := by simpa using hc
        simp [get_clash, hc, hi, hb2] at h
        exact ⟨h.symm, by simp [hi], hc⟩
  · intro killOk now st h
    rw [stop_clash_ok_shape killOk now st h]
    simp [get_clash, defaultStatus, DEFAULT_RETRY_COUNT]

theorem get_clash_snapshot_witness :
    get_clash ⟨true, 10, some (), 0, some sampleBody⟩
      = .ok ⟨true, 10, some (), 0, some sampleBody⟩ ∧
    get_clash ⟨false, 10, none, 0, none⟩ = .error "clash not executed" :=
  ⟨(get_clash_snapshot ⟨true, 10, some (), 0, some sampleBody⟩).1 sampleBody rfl (by decide),
   (get_clash_snapshot ⟨false, 10, none, 0, none⟩).2.1 rfl (by decide)⟩

/-- C7: after a successful `StartClash` whose body carried
`socket_path = P`, the `StopClash` arm — which captures the stored
socket path from the supervisor state before stopping and removes the
file if it still exists — leaves no file at `P`; with the kill
succeeding, the response envelope carries code 0. -/
theorem stop_clash_removes_socket_file
    (killOk0 logCfgOk spawnOk killOk1 : Bool) (t0 t1 : Int) (body : StartBody) (P : String)
    (s s1 : ServiceState) (fs : String → Bool)
    (hsp : body.socket_path = some P)
    (hstart : start_clash killOk0 logCfgOk spawnOk t0 body s = .ok s1) :
    (handle_stop_clash killOk1 t1 s1 fs).fs P = false ∧
    (handle_stop_clash true t1 s1 fs).code = 0 := by
  have hs1 := start_clash_ok_shape killOk0 logCfgOk spawnOk t0 body s s1 hstart
  subst hs1
  constructor
  · simp [handle_stop_clash, hsp]
  · simp [handle_stop_clash, stop_clash]

theorem stop_clash_removes_socket_file_witness :
    (handle_stop_clash true 2 ⟨⟨true, DEFAULT_RETRY_COUNT, some (), 1, some sampleBody⟩, []⟩
      (fun _ => true)).fs "/tmp/verge-mihomo-test.sock" = false :=
  (stop_clash_removes_socket_file true true true true 1 2 sampleBody
    "/tmp/verge-mihomo-test.sock" ⟨⟨false, 10, none, 0, none⟩, []⟩
    ⟨⟨true, DEFAULT_RETRY_COUNT, some (), 1, some sampleBody⟩, []⟩
    (fun _ => true) rfl rfl).1

/-- C8 counterexample: the envelope whose payload itself encodes to
`null` (as every successful `StartClash` / `StopClash` / `StopService`
response does, `T = ()`) does not round-trip: `data = Some(())` encodes
to `"data": null`, which decodes back to `data = None`. -/
theorem envelope_roundtrip_cex :
    decodeResponse (encodeResponse ⟨0, "ok", some Json.null⟩) = some ⟨0, "ok", none⟩ ∧
    some (⟨0, "ok", none⟩ : JsonResponse) ≠ some (⟨0, "ok", some Json.null⟩ : JsonResponse) := by
  refine ⟨rfl, ?_⟩
  intro h
  simp at h

/-- C8 (amended): decoding inverts encoding for every command, and for
every response envelope whose `data` payload does not itself encode to
`null`; an envelope with `data = some null` decodes with `data = none`
instead. -/
theorem codec_roundtrip :
    (∀ cmd : SocketCommand, decodeCommand (encodeCommand cmd) = some cmd) ∧
    (∀ r : JsonResponse, r.data ≠ some Json.null →
      decodeResponse (encodeResponse r) = some r) := by
  constructor
  · intro cmd
    cases cmd
    case StartClash body =>
      rcases body with ⟨ct, sp, bp, cd, cf, lf⟩
      cases ct <;> cases sp <;> rfl
    all_goals rfl
  · intro r hd
    rcases r with ⟨code, msg, data⟩
    rcases data with - | v
    · rfl
    · cases v
      case null => exact absurd rfl hd
      all_goals rfl

theorem codec_roundtrip_witness :
    decodeCommand (encodeCommand (.StartClash sampleBody)) = some (.StartClash sampleBody) ∧
    decodeResponse (encodeResponse ⟨0, "ok", some (Json.str "1.0.0")⟩)
      = some ⟨0, "ok", some (Json.str "1.0.0")⟩ := by
  refine ⟨codec_roundtrip.1 (.StartClash sampleBody),
    codec_roundtrip.2 ⟨0, "ok", some (Json.str "1.0.0")⟩ ?_⟩
  intro h
  simp at h

/-- C9: when a child handle is stored and `kill` fails, `stop_clash`
returns the error with the handle already taken out of the state and
everything else untouched — flags, count, info, timestamps, the log
ring — and without the `verge-mihomo` sweep; the full reset to defaults
happens exactly when no child is stored or the kill succeeds. -/
theorem stop_clash_kill_error_preserves_state (now : Int) (s : ServiceState)
    (hchild : s.clash.child = some ()) :
    stop_clash false now s
      = ⟨.error "kill failed", { s with clash := { s.clash with child := none } }, false⟩ ∧
    ∀ (s' : ServiceState) (killOk : Bool) (now' : Int),
      s'.clash.child = none ∨ killOk = true →
      stop_clash killOk now' s' = ⟨.ok (), ⟨defaultStatus now', []⟩, true⟩ := by
  constructor
  · simp [stop_clash, hchild]
  · intro s' killOk now' h
    rcases h with h | h
    · simp [stop_clash, h]
    · subst h
      rcases hch : s'.clash.child with - | c
      · simp [stop_clash, hch]
      · simp [stop_clash, hch]

theorem stop_clash_kill_error_preserves_state_witness :
    stop_clash false 5 ⟨⟨true, 7, some (), 3, some sampleBody⟩, ["line"]⟩
      = ⟨.error "kill failed", ⟨⟨true, 7, none, 3, some sampleBody⟩, ["line"]⟩, false⟩ :=
  (stop_clash_kill_error_preserves_state 5
    ⟨⟨true, 7, some (), 3, some sampleBody⟩, ["line"]⟩ rfl).1

/-- C10: `start_clash` panics (an `unwrap` of `None`) whenever
`body.log_file` lacks a parent directory or a final file-name component
— for example `"/"` or `""` — and by the panic point it has already
stopped the previous child and set `auto_restart = true` and
`info = Some(body)`; when both components exist it never panics. -/
theorem start_clash_panics_on_rootless_log_path
    (killOk logCfgOk spawnOk : Bool) (now : Int) (body : StartBody) (s : ServiceState)
    (hstop : (stop_clash killOk now s).result = .ok ())
    (hbad : pathParent body.log_file = none ∨ pathFileName body.log_file = none) :
    start_clash killOk logCfgOk spawnOk now body s
      = .panicked ⟨⟨true, DEFAULT_RETRY_COUNT, none, now, some body⟩, []⟩ ∧
    (pathParent "/" = none ∧ pathFileName "/" = none ∧
     pathParent "" = none ∧ pathFileName "" = none) ∧
    ∀ body' : StartBody,
      (pathParent body'.log_file).isSome = true →
      (pathFileName body'.log_file).isSome = true →
      (start_clash killOk logCfgOk spawnOk now body' s).isPanic = false := by
  refine ⟨?_, ⟨by decide, by decide, by decide, by decide⟩, ?_⟩
  · simp only [start_clash]
    rw [stop_clash_ok_shape killOk now s hstop]
    rcases hbad with h | h
    · simp [h, defaultStatus]
    · rcases hp : pathParent body.log_file with - | d
      · simp [hp, defaultStatus]
      · simp [hp, h, defaultStatus]
  · intro body' hp hf
    rcases hp2 : pathParent body'.log_file with - | d
    · rw [hp2] at hp
      simp at hp
    · rcases hf2 : pathFileName body'.log_file with - | f
      · rw [hf2] at hf
        simp at hf
      · simp only [start_clash]
        rw [stop_clash_ok_shape killOk now s hstop]
        simp only [hp2, hf2]
        cases logCfgOk
        · simp [StartOutcome.isPanic]
        · cases spawnOk <;> simp [run_core, StartOutcome.isPanic]

theorem start_clash_panics_on_rootless_log_path_witness :
    start_clash true true true 4 { sampleBody with log_file := "/" }
      ⟨⟨false, 10, none, 0, none⟩, []⟩
      = .panicked ⟨⟨true, DEFAULT_RETRY_COUNT, none, 4,
          some { sampleBody with log_file := "/" }⟩, []⟩ :=
  (start_clash_panics_on_rootless_log_path true true true 4
    { sampleBody with log_file := "/" } ⟨⟨false, 10, none, 0, none⟩, []⟩
    rfl (Or.inl (by decide))).1
